import Mathlib

/-!
Shallow embedding of the pricing/eligibility calculation engine of
`bot-engine` (`engine/src/calculator.js`).

Numbers are modelled as exact rationals (`ℚ`); the JavaScript numeric
literals of the source (1.4, 0.85, ...) are taken at their decimal value.
JavaScript objects used as lookup tables become association lists, and the
idiom `table[key] || 1.0` becomes `(table.lookup key).getD 1` (every stored
value in the source tables is a nonzero number, so JS truthiness coincides
with key presence).  Absent (`undefined`) optional fields are `none`;
`parseFloat` results are modelled as `Option ℚ`, `none` standing for an
absent field or a `NaN` parse.  String operations of the source
(`toLowerCase`, `startsWith`, `substring(0,3)`) are embedded as
kernel-computable functions over `String.data`.
-/

/-- JS `Math.round`: round half toward positive infinity,
`Math.round(x) = ⌊x + 1/2⌋`.  Defined through `Rat.floor` so that it
evaluates by kernel reduction; `jsRound_eq_floor` relates it to `⌊·⌋`. -/
def jsRound (q : ℚ) : ℤ :=
  Rat.floor (q + 1/2)

/-- JS `s || dflt` for an optional string: `undefined` and the empty string
(both falsy) fall back to the default. -/
def jsStringOr (v : Option String) (dflt : String) : String :=
  match v with
  | none => dflt
  | some s => if s = "" then dflt else s

/-- JS `String.prototype.toLowerCase()` (ASCII case mapping, which covers
every key appearing in the source tables). -/
def jsToLower (s : String) : String :=
  ⟨s.data.map Char.toLower⟩

/-- JS `String.prototype.startsWith(pre)`. -/
def jsStartsWith (s pre : String) : Bool :=
  List.isPrefixOf pre.data s.data

/-- JS `String.prototype.substring(0, 3)`. -/
def jsSubstring0_3 (s : String) : String :=
  ⟨s.data.take 3⟩

/-- `PRICING_CONFIG.BASE_RATES`: base rates per sqft by project type and
finish tier (calculator.js lines 11-22). -/
def BASE_RATES : List (String × List (String × ℚ)) :=
  [("Residential", [("Economy", 1200), ("Standard", 1500), ("Premium", 2000)]),
   ("Commercial",  [("Economy",  800), ("Standard", 1000), ("Premium", 1200)])]

/-- `PRICING_CONFIG.BOT_MULTIPLIERS` (calculator.js lines 25-30). -/
def BOT_MULTIPLIERS : List (String × ℚ) :=
  [("kavya", 1.4), ("arjun", 1.0), ("priya", 0.7), ("rohan", 1.2)]

/-- `PRICING_CONFIG.MATERIAL_MULTIPLIERS.flooring` (calculator.js lines 34-41). -/
def MATERIAL_MULTIPLIERS_flooring : List (String × ℚ) :=
  [("marble-granite", 1.8), ("premium-tiles", 1.4), ("engineered-wood", 1.6),
   ("laminate", 1.2), ("standard-tiles", 1.0), ("vinyl", 0.8)]

/-- `PRICING_CONFIG.MATERIAL_MULTIPLIERS.kitchen` (calculator.js lines 42-47). -/
def MATERIAL_MULTIPLIERS_kitchen : List (String × ℚ) :=
  [("premium-modular", 2.2), ("standard-modular", 1.5), ("semi-modular", 1.2),
   ("basic", 0.9)]

/-- `PRICING_CONFIG.MATERIAL_MULTIPLIERS.lighting` (calculator.js lines 48-53). -/
def MATERIAL_MULTIPLIERS_lighting : List (String × ℚ) :=
  [("designer", 2.0), ("premium", 1.5), ("standard", 1.2), ("basic", 0.8)]

/-- `PRICING_CONFIG.MATERIAL_MULTIPLIERS.paint` (calculator.js lines 54-58). -/
def MATERIAL_MULTIPLIERS_paint : List (String × ℚ) :=
  [("premium", 1.4), ("standard", 1.0), ("economy", 0.7)]

/-- `PRICING_CONFIG.MATERIAL_MULTIPLIERS.furniture` (calculator.js lines 59-64). -/
def MATERIAL_MULTIPLIERS_furniture : List (String × ℚ) :=
  [("custom", 2.5), ("premium-modular", 1.8), ("standard-modular", 1.3),
   ("ready-made", 1.0)]

/-- `PRICING_CONFIG.REGION_MULTIPLIERS` (calculator.js lines 68-83). -/
def REGION_MULTIPLIERS : List (String × ℚ) :=
  [("mumbai", 1.3), ("delhi", 1.25), ("bangalore", 1.2), ("pune", 1.15),
   ("hyderabad", 1.1), ("chennai", 1.0), ("kolkata", 1.0), ("ahmedabad", 0.95),
   ("default", 0.85)]

/-- Property access `PRICING_CONFIG.REGION_MULTIPLIERS.<city>` (always a hit
in the source; the `getD 1` can never fire for the keys actually used). -/
def regionMult (city : String) : ℚ :=
  (REGION_MULTIPLIERS.lookup city).getD 1

/-- `PRICING_CONFIG.TIMELINE_MULTIPLIERS` (calculator.js lines 86-90). -/
def TIMELINE_MULTIPLIERS : List (String × ℚ) :=
  [("rush", 1.4), ("normal", 1.0), ("flexible", 0.95)]

/-- `PRICING_CONFIG.SCOPE_MULTIPLIERS` (calculator.js lines 93-98). -/
def SCOPE_MULTIPLIERS : List (String × ℚ) :=
  [("full-renovation", 1.2), ("partial-renovation", 1.0),
   ("fresh-interiors", 0.9), ("single-room", 0.8)]

/-- The questionnaire `responses` object: every field optional
(`undefined` modelled as `none`).  `areaSqft` carries the `parseFloat`
result of whatever was supplied (`none` = absent or unparseable/NaN). -/
structure Responses where
  areaSqft : Option ℚ := none
  projectType : Option String := none
  finishTier : Option String := none
  flooring : Option String := none
  kitchen : Option String := none
  lighting : Option String := none
  paint : Option String := none
  furniture : Option String := none
  pincode : Option String := none
  timeline : Option String := none
  projectScope : Option String := none
deriving Repr, DecidableEq

/-- Line 111: `const area = parseFloat(responses.areaSqft) || 1000`.
`NaN` (unparseable/absent, here `none`) and `0` are falsy and fall back to
1000; every other parsed value — including negative numbers — is kept. -/
def areaOf (a : Option ℚ) : ℚ :=
  match a with
  | none => 1000
  | some q => if q = 0 then 1000 else q

/-- Line 112: `responses.projectType || 'Residential'`. -/
def projectTypeOf (r : Responses) : String :=
  jsStringOr r.projectType "Residential"

/-- Line 113: `responses.finishTier || 'Standard'`. -/
def finishTierOf (r : Responses) : String :=
  jsStringOr r.finishTier "Standard"

/-- The nested access `PRICING_CONFIG.BASE_RATES[projectType]?.[finishTier]`
(line 116), before the `|| 1200` fallback. -/
def baseRateFor (projectType finishTier : String) : Option ℚ :=
  (BASE_RATES.lookup projectType).bind (fun tiers => tiers.lookup finishTier)

/-- Line 116: `PRICING_CONFIG.BASE_RATES[projectType]?.[finishTier] || 1200`. -/
def baseRatePerSqftOf (r : Responses) : ℚ :=
  (baseRateFor (projectTypeOf r) (finishTierOf r)).getD 1200

/-- Line 120: `PRICING_CONFIG.BOT_MULTIPLIERS[botType.toLowerCase()] || 1.0`. -/
def botMultiplierFor (botType : String) : ℚ :=
  (BOT_MULTIPLIERS.lookup (jsToLower botType)).getD 1

/-- One guarded lookup of `calculateMaterialMultiplier` (lines 183-205):
`if (responses.<field>) { m *= TABLE[responses.<field>] || 1.0 }`.
An absent field and the falsy empty string skip the lookup (factor 1);
a present unknown key falls back to 1. -/
def materialCategoryFactor (table : List (String × ℚ)) (field : Option String) : ℚ :=
  match field with
  | none => 1
  | some s => if s = "" then 1 else (table.lookup s).getD 1

/-- `calculateMaterialMultiplier` (calculator.js lines 179-208): the running
`materialMultiplier` starts at 1.0 and multiplies in the five guarded
per-category lookups in source order. -/
def calculateMaterialMultiplier (r : Responses) : ℚ :=
  materialCategoryFactor MATERIAL_MULTIPLIERS_flooring r.flooring *
  materialCategoryFactor MATERIAL_MULTIPLIERS_kitchen r.kitchen *
  materialCategoryFactor MATERIAL_MULTIPLIERS_lighting r.lighting *
  materialCategoryFactor MATERIAL_MULTIPLIERS_paint r.paint *
  materialCategoryFactor MATERIAL_MULTIPLIERS_furniture r.furniture

/-- `getRegionMultiplier` (calculator.js lines 213-240).  `!pincode` is true
for `undefined` (`none`) and for the falsy empty string; otherwise the
ordered `startsWith` chain runs, falling through to the `default` entry. -/
def getRegionMultiplier (pincode : Option String) : ℚ :=
  match pincode with
  | none => 1
  | some s =>
    if s = "" then 1
    else if jsStartsWith s "400" then regionMult "mumbai"
    else if jsStartsWith s "110" || jsStartsWith s "121" || jsStartsWith s "122" then
      regionMult "delhi"
    else if jsStartsWith s "560" then regionMult "bangalore"
    else if jsStartsWith s "411" || jsStartsWith s "412" then regionMult "pune"
    else if jsStartsWith s "500" then regionMult "hyderabad"
    else regionMult "default"

/-- Line 132: `PRICING_CONFIG.TIMELINE_MULTIPLIERS[responses.timeline] || 1.0`
(indexing an object with `undefined` misses, hence `none ↦ 1`). -/
def timelineMultiplierFor (t : Option String) : ℚ :=
  match t with
  | none => 1
  | some s => (TIMELINE_MULTIPLIERS.lookup s).getD 1

/-- Line 136: `PRICING_CONFIG.SCOPE_MULTIPLIERS[responses.projectScope] || 1.0`. -/
def scopeMultiplierFor (t : Option String) : ℚ :=
  match t with
  | none => 1
  | some s => (SCOPE_MULTIPLIERS.lookup s).getD 1

/-- The running `totalPrice` of lines 117-137 after all five `*=` steps:
`baseRatePerSqft * area`, then bot, material, region, timeline and scope
multipliers applied in that order (left-associated, exactly as the
sequential `*=` chain of the source). -/
def totalPriceOf (r : Responses) (botType : String) : ℚ :=
  baseRatePerSqftOf r * areaOf r.areaSqft *
    botMultiplierFor botType *
    calculateMaterialMultiplier r *
    getRegionMultiplier r.pincode *
    timelineMultiplierFor r.timeline *
    scopeMultiplierFor r.projectScope

/-- Output of `generatePricingTiers` (calculator.js lines 245-254).  The
`display` string of the source is the locale-formatted presentation of the
same two bounds and is not modelled. -/
structure PricingTiers where
  min : ℤ
  max : ℤ
deriving Repr, DecidableEq

/-- `generatePricingTiers` (calculator.js lines 245-254): ±15% bounds around
its argument, each rounded with `Math.round`. -/
def generatePricingTiers (basePrice : ℚ) : PricingTiers :=
  { min := jsRound (basePrice * 0.85),
    max := jsRound (basePrice * 1.15) }

/-- The `pricing` object of the success result (calculator.js lines 145-150). -/
structure Pricing where
  basePrice : ℤ
  finalPrice : ℤ
  priceRange : PricingTiers
  currency : String
deriving Repr, DecidableEq

/-- The `breakdown` object of the success result (calculator.js lines 151-158). -/
structure Breakdown where
  botSpecialist : String
  botMultiplier : ℚ
  materialFactor : ℚ
  regionFactor : ℚ
  timelineFactor : ℚ
  scopeFactor : ℚ
deriving Repr, DecidableEq

/-- The success result of `calculateDetailedPrice` (calculator.js lines
143-165).  Of the `metadata` object the deterministic fields are kept; the
wall-clock `calculatedAt` timestamp is not modelled. -/
structure Estimate where
  pricing : Pricing
  breakdown : Breakdown
  area : ℚ
  projectType : String
  finishTier : String
deriving Repr, DecidableEq

/-- Result of `calculateDetailedPrice`: the `success: true` object of lines
143-165, or the `success: false` object of the catch branch (lines 168-172)
with its `error` and `fallbackPrice` strings. -/
inductive CalcResult where
  | ok (est : Estimate)
  | failure (error : String) (fallbackPrice : String)
deriving Repr, DecidableEq

/-- The exact value built by the catch branch of `calculateDetailedPrice`
(calculator.js lines 167-173). -/
def CALC_FALLBACK : CalcResult :=
  CalcResult.failure "Pricing calculation failed" "₹15,00,000 - ₹25,00,000"

/-- The `success` flag of either result object. -/
def CalcResult.isSuccess : CalcResult → Bool
  | .ok _ => true
  | .failure _ _ => false

/-- Projection onto the `pricing` object of a success result. -/
def CalcResult.getPricing : CalcResult → Option Pricing
  | .ok e => some e.pricing
  | .failure _ _ => none

/-- Projection onto the `breakdown` object of a success result. -/
def CalcResult.getBreakdown : CalcResult → Option Breakdown
  | .ok e => some e.breakdown
  | .failure _ _ => none

/-- Projection onto the `metadata.area` field of a success result. -/
def CalcResult.getArea : CalcResult → Option ℚ
  | .ok e => some e.area
  | .failure _ _ => none

/-- Projection onto the `fallbackPrice` field of a failure result. -/
def CalcResult.getFallbackPrice : CalcResult → Option String
  | .ok _ => none
  | .failure _ fb => some fb

/-- `calculateDetailedPrice` (calculator.js lines 108-174).  The `botType`
argument is a string (the expected shape), so every step of the `try` body
is total and the catch branch cannot fire; the embedding accordingly always
builds the `success: true` object.  `clientType` (default `'interiors'`) is
accepted and, as in the source body, never read. -/
def calculateDetailedPrice (responses : Responses) (botType : String)
    (clientType : String := "interiors") : CalcResult :=
  CalcResult.ok
    { pricing :=
        { basePrice := jsRound (baseRatePerSqftOf responses * areaOf responses.areaSqft),
          finalPrice := jsRound (totalPriceOf responses botType),
          priceRange := generatePricingTiers (totalPriceOf responses botType),
          currency := "INR" },
      breakdown :=
        { botSpecialist := botType,
          botMultiplier := botMultiplierFor botType,
          materialFactor := calculateMaterialMultiplier responses,
          regionFactor := getRegionMultiplier responses.pincode,
          timelineFactor := timelineMultiplierFor responses.timeline,
          scopeFactor := scopeMultiplierFor responses.projectScope },
      area := areaOf responses.areaSqft,
      projectType := projectTypeOf responses,
      finishTier := finishTierOf responses }

/-- The `servicePincodes` table of `validateServiceArea`
(calculator.js lines 268-281), with the `|| servicePincodes.interiors`
fallback of line 284 for unknown service types. -/
def servicePincodesFor (serviceType : String) : List String :=
  match serviceType with
  | "interiors" => ["400", "110", "560", "411", "500", "600", "700", "380", "302", "226"]
  | "salon" => ["400", "110", "560", "411", "500", "600"]
  | "tutor" => ["400", "110", "560", "411", "500", "600", "700"]
  | _ => ["400", "110", "560", "411", "500", "600", "700", "380", "302", "226"]

/-- The `metroAreas` list shared (as two identical literals) by
`getEstimatedDelivery` and `getServiceLevel` (calculator.js lines 294, 299). -/
def metroAreas : List String :=
  ["400", "110", "560", "411", "500"]

/-- `getEstimatedDelivery` (calculator.js lines 293-296). -/
def getEstimatedDelivery (pfx : String) : String :=
  if metroAreas.contains pfx then "45-60 days" else "60-90 days"

/-- `getServiceLevel` (calculator.js lines 298-301). -/
def getServiceLevel (pfx : String) : String :=
  if metroAreas.contains pfx then "premium" else "standard"

/-- `ServiceAreaResult`: the object returned by `validateServiceArea`
(calculator.js lines 286-290). -/
structure ServiceAreaResult where
  isServiceable : Bool
  estimatedDelivery : String
  serviceLevel : String
deriving Repr, DecidableEq

/-- `validateServiceArea` (calculator.js lines 266-291). -/
def validateServiceArea (pincode : String) (serviceType : String := "interiors") :
    ServiceAreaResult :=
  let pincodeStr := jsSubstring0_3 pincode
  { isServiceable := (servicePincodesFor serviceType).contains pincodeStr,
    estimatedDelivery := getEstimatedDelivery pincodeStr,
    serviceLevel := getServiceLevel pincodeStr }

/-! ## Helper lemmas -/

theorem jsRound_eq_floor (q : ℚ) : jsRound q = ⌊q + 1/2⌋ := by
  rw [jsRound, Rat.floor_def', Rat.floor_def]

theorem jsRound_nonneg (q : ℚ) (h : 0 ≤ q) : 0 ≤ jsRound q := by
  rw [jsRound_eq_floor]
  exact Int.le_floor.mpr (by push_cast; linarith)

theorem lookup_some_mem {β : Type} (tbl : List (String × β)) (k : String) (v : β)
    (h : tbl.lookup k = some v) : ∃ k2, (k2, v) ∈ tbl := by
  induction tbl with
  | nil => simp at h
  | cons hd tl ih =>
      obtain ⟨k0, v0⟩ := hd
      rw [List.lookup_cons] at h
      cases hk : (k == k0) with
      | true =>
          rw [hk] at h
          simp only [Option.some.injEq] at h
          exact ⟨k0, by simp [h]⟩
      | false =>
          rw [hk] at h
          obtain ⟨k2, hk2⟩ := ih h
          exact ⟨k2, List.mem_cons_of_mem _ hk2⟩

theorem lookup_getD_pos (tbl : List (String × ℚ)) (k : String) (d : ℚ) (hd : 0 < d)
    (h : ∀ p ∈ tbl, 0 < p.2) : 0 < (tbl.lookup k).getD d := by
  cases hlk : tbl.lookup k with
  | none => simpa using hd
  | some v =>
      obtain ⟨k2, hmem⟩ := lookup_some_mem tbl k v hlk
      simpa using h (k2, v) hmem

theorem lookup_getD_one_pos (tbl : List (String × ℚ)) (k : String)
    (h : ∀ p ∈ tbl, 0 < p.2) : 0 < (tbl.lookup k).getD 1 :=
  lookup_getD_pos tbl k 1 one_pos h

theorem contains_true_iff_mem (l : List String) (a : String) :
    l.contains a = true ↔ a ∈ l := by
  simp [List.contains]

theorem materialCategoryFactor_pos (tbl : List (String × ℚ)) (f : Option String)
    (h : ∀ p ∈ tbl, 0 < p.2) : 0 < materialCategoryFactor tbl f := by
  cases f with
  | none => norm_num [materialCategoryFactor]
  | some s =>
      simp only [materialCategoryFactor]
      split_ifs with hs
      · norm_num
      · exact lookup_getD_one_pos tbl s h

theorem BOT_MULTIPLIERS_pos : ∀ p ∈ BOT_MULTIPLIERS, 0 < p.2 := by
  intro p hp
  simp [BOT_MULTIPLIERS] at hp
  rcases hp with rfl | rfl | rfl | rfl <;> norm_num

theorem flooring_pos : ∀ p ∈ MATERIAL_MULTIPLIERS_flooring, 0 < p.2 := by
  intro p hp
  simp [MATERIAL_MULTIPLIERS_flooring] at hp
  rcases hp with rfl | rfl | rfl | rfl | rfl | rfl <;> norm_num

theorem kitchen_pos : ∀ p ∈ MATERIAL_MULTIPLIERS_kitchen, 0 < p.2 := by
  intro p hp
  simp [MATERIAL_MULTIPLIERS_kitchen] at hp
  rcases hp with rfl | rfl | rfl | rfl <;> norm_num

theorem lighting_pos : ∀ p ∈ MATERIAL_MULTIPLIERS_lighting, 0 < p.2 := by
  intro p hp
  simp [MATERIAL_MULTIPLIERS_lighting] at hp
  rcases hp with rfl | rfl | rfl | rfl <;> norm_num

theorem paint_pos : ∀ p ∈ MATERIAL_MULTIPLIERS_paint, 0 < p.2 := by
  intro p hp
  simp [MATERIAL_MULTIPLIERS_paint] at hp
  rcases hp with rfl | rfl | rfl <;> norm_num

theorem furniture_pos : ∀ p ∈ MATERIAL_MULTIPLIERS_furniture, 0 < p.2 := by
  intro p hp
  simp [MATERIAL_MULTIPLIERS_furniture] at hp
  rcases hp with rfl | rfl | rfl | rfl <;> norm_num

theorem calculateMaterialMultiplier_pos (r : Responses) :
    0 < calculateMaterialMultiplier r := by
  unfold calculateMaterialMultiplier
  have h1 := materialCategoryFactor_pos MATERIAL_MULTIPLIERS_flooring r.flooring flooring_pos
  have h2 := materialCategoryFactor_pos MATERIAL_MULTIPLIERS_kitchen r.kitchen kitchen_pos
  have h3 := materialCategoryFactor_pos MATERIAL_MULTIPLIERS_lighting r.lighting lighting_pos
  have h4 := materialCategoryFactor_pos MATERIAL_MULTIPLIERS_paint r.paint paint_pos
  have h5 := materialCategoryFactor_pos MATERIAL_MULTIPLIERS_furniture r.furniture furniture_pos
  positivity

theorem regionMult_mumbai : regionMult "mumbai" = 1.3 := by
  simp +decide [regionMult, REGION_MULTIPLIERS, List.lookup]

theorem regionMult_delhi : regionMult "delhi" = 1.25 := by
  simp +decide [regionMult, REGION_MULTIPLIERS, List.lookup]

theorem regionMult_bangalore : regionMult "bangalore" = 1.2 := by
  simp +decide [regionMult, REGION_MULTIPLIERS, List.lookup]

theorem regionMult_pune : regionMult "pune" = 1.15 := by
  simp +decide [regionMult, REGION_MULTIPLIERS, List.lookup]

theorem regionMult_hyderabad : regionMult "hyderabad" = 1.1 := by
  simp +decide [regionMult, REGION_MULTIPLIERS, List.lookup]

theorem regionMult_fallthrough : regionMult "default" = 0.85 := by
  simp +decide [regionMult, REGION_MULTIPLIERS, List.lookup]

theorem getRegionMultiplier_pos (p : Option String) : 0 < getRegionMultiplier p := by
  unfold getRegionMultiplier
  split
  · norm_num
  · split_ifs <;>
      norm_num [regionMult_mumbai, regionMult_delhi, regionMult_bangalore,
        regionMult_pune, regionMult_hyderabad, regionMult_fallthrough]

theorem botMultiplierFor_pos (b : String) : 0 < botMultiplierFor b :=
  lookup_getD_one_pos _ _ BOT_MULTIPLIERS_pos

theorem timelineMultiplierFor_pos (t : Option String) : 0 < timelineMultiplierFor t := by
  cases t with
  | none => norm_num [timelineMultiplierFor]
  | some s =>
      refine lookup_getD_one_pos _ _ ?_
      intro p hp
      simp [TIMELINE_MULTIPLIERS] at hp
      rcases hp with rfl | rfl | rfl <;> norm_num

theorem scopeMultiplierFor_pos (t : Option String) : 0 < scopeMultiplierFor t := by
  cases t with
  | none => norm_num [scopeMultiplierFor]
  | some s =>
      refine lookup_getD_one_pos _ _ ?_
      intro p hp
      simp [SCOPE_MULTIPLIERS] at hp
      rcases hp with rfl | rfl | rfl | rfl <;> norm_num

theorem baseRatePerSqftOf_pos (r : Responses) : 0 < baseRatePerSqftOf r := by
  unfold baseRatePerSqftOf baseRateFor
  cases h1 : BASE_RATES.lookup (projectTypeOf r) with
  | none => norm_num
  | some tiers =>
      obtain ⟨k2, hmem⟩ := lookup_some_mem _ _ _ h1
      have htiers : ∀ p ∈ tiers, 0 < p.2 := by
        simp [BASE_RATES] at hmem
        rcases hmem with ⟨_, rfl⟩ | ⟨_, rfl⟩ <;>
          · intro p hp
            simp at hp
            rcases hp with rfl | rfl | rfl <;> norm_num
      show 0 < (tiers.lookup (finishTierOf r)).getD 1200
      exact lookup_getD_pos tiers _ 1200 (by norm_num) htiers

/-! ## Claims -/

/-- Claim C3, counterexample.  The claim states
`priceRange.min = round(finalPrice * 0.85)`; the source instead derives the
range from the unrounded running total (`generatePricingTiers(totalPrice)`
on line 140, before the rounding on line 147).  For responses
`{projectCategory: Commercial, finishTier: Standard, areaSqft: 0.0017}` the
unrounded total is 1.7, so `finalPrice = round(1.7) = 2` while
`priceRange.min = round(1.7 * 0.85) = round(1.445) = 1`, yet
`round(finalPrice * 0.85) = round(1.7) = 2`. -/
theorem C3_priceRange_from_finalPrice_cex :
    (calculateDetailedPrice
        { projectType := some "Commercial", finishTier := some "Standard",
          areaSqft := some 0.0017 } "arjun" "interiors").getPricing.map
        Pricing.finalPrice = some 2 ∧
    (calculateDetailedPrice
        { projectType := some "Commercial", finishTier := some "Standard",
          areaSqft := some 0.0017 } "arjun" "interiors").getPricing.map
        (fun pr => pr.priceRange.min) = some 1 ∧
    jsRound ((2 : ℚ) * 0.85) = 2 ∧ ((1 : ℤ) < 2) := by
  refine ⟨?_, ?_, ?_, by norm_num⟩ <;>
    · simp [calculateDetailedPrice, CalcResult.getPricing, totalPriceOf,
        baseRatePerSqftOf, projectTypeOf, finishTierOf, jsStringOr, baseRateFor,
        BASE_RATES, areaOf, botMultiplierFor, BOT_MULTIPLIERS, List.lookup,
        (show jsToLower "arjun" = "arjun" by decide),
        calculateMaterialMultiplier, materialCategoryFactor, getRegionMultiplier,
        timelineMultiplierFor, scopeMultiplierFor, generatePricingTiers,
        jsRound_eq_floor]
      norm_num

/-- Claim C3, amended: `priceRange.min` and `priceRange.max` are
`round(T * 0.85)` and `round(T * 1.15)` where `T` is the unrounded running
total of the multiplier chain — the quantity whose rounding is `finalPrice`
— rather than `finalPrice` itself (the two agree whenever `T` is an
integer). -/
theorem C3_priceRange_from_unrounded_total (r : Responses) (b c : String) :
    ∃ e, calculateDetailedPrice r b c = CalcResult.ok e ∧
      e.pricing.priceRange.min = jsRound (totalPriceOf r b * 0.85) ∧
      e.pricing.priceRange.max = jsRound (totalPriceOf r b * 1.15) ∧
      e.pricing.finalPrice = jsRound (totalPriceOf r b) :=
  ⟨_, rfl, rfl, rfl, rfl⟩

/-- Claim C4: `finalPrice` equals the unrounded base price
(base rate per sqft times area) multiplied by the five factors recorded in
the returned breakdown, rounded exactly once at the end. -/
theorem C4_finalPrice_single_rounding (r : Responses) (b c : String) :
    ∃ e, calculateDetailedPrice r b c = CalcResult.ok e ∧
      e.pricing.finalPrice =
        jsRound ((baseRatePerSqftOf r * areaOf r.areaSqft) *
          e.breakdown.botMultiplier * e.breakdown.materialFactor *
          e.breakdown.regionFactor * e.breakdown.timelineFactor *
          e.breakdown.scopeFactor) :=
  ⟨_, rfl, rfl⟩

/-- Claim C7: for every input of the expected shape (an arbitrary response
record and string persona/client ids) `calculateDetailedPrice` yields the
`success: true` result — the catch branch is unreachable — and the value the
catch branch would return carries `success: false` together with the static
fallback price range string. -/
theorem C7_total_function_and_fallback :
    (∀ (r : Responses) (b c : String), (calculateDetailedPrice r b c).isSuccess = true) ∧
      CALC_FALLBACK.isSuccess = false ∧
      CALC_FALLBACK.getFallbackPrice = some "₹15,00,000 - ₹25,00,000" :=
  ⟨fun _ _ _ => rfl, rfl, rfl⟩

/-- Claim C6, counterexample.  The claim says any supplied `areaSqft` that is
not `> 0` defaults to 1000; but `parseFloat(x) || 1000` only replaces `NaN`
and `0` (the falsy values), so the negative parse `-5` is used as the area
unchanged. -/
theorem C6_negative_area_not_defaulted_cex :
    (calculateDetailedPrice { areaSqft := some (-5) } "arjun" "interiors").getArea
        = some (-5) ∧
    ((-5 : ℚ) < 0) ∧ ((-5 : ℚ) < 1000) := by
  refine ⟨?_, by norm_num, by norm_num⟩
  simp [calculateDetailedPrice, CalcResult.getArea, areaOf]

/-- Claim C6, amended: the area used by the engine equals the supplied
parsed value whenever that value is nonzero — including negative values —
and defaults to 1000 exactly when the field is missing, unparseable (NaN),
or parses to 0; the `metadata.area` of the result records the area used. -/
theorem C6_area_default_semantics :
    areaOf none = 1000 ∧ areaOf (some 0) = 1000 ∧
    (∀ q : ℚ, q ≠ 0 → areaOf (some q) = q) ∧
    (∀ (r : Responses) (b c : String), ∃ e, calculateDetailedPrice r b c = CalcResult.ok e ∧
      e.area = areaOf r.areaSqft) := by
  refine ⟨rfl, by norm_num [areaOf], fun q hq => by simp [areaOf, hq],
    fun r b c => ⟨_, rfl, rfl⟩⟩

/-- Witness for `C6_area_default_semantics` at the concrete nonzero
parse `-5`. -/
theorem C6_area_default_semantics_witness : areaOf (some (-5)) = -5 :=
  C6_area_default_semantics.2.2.1 (-5) (by norm_num)

/-- Claim C1, counterexample.  The claim includes the postal-code region
prefix among the enumerated fields whose unknown values contribute
multiplier 1.0; but a supplied pincode whose prefix matches no rule falls to
the `default` entry 0.85 (calculator.js line 239), so with pincode
`"999999"` the recorded region factor is 0.85 and the final price is
1,275,000 instead of the 1,500,000 obtained without a pincode. -/
theorem C1_unknown_region_prefix_cex :
    (calculateDetailedPrice { pincode := some "999999" } "arjun"
        "interiors").getBreakdown.map Breakdown.regionFactor = some 0.85 ∧
    ((0.85 : ℚ) < 1) ∧
    (calculateDetailedPrice { pincode := some "999999" } "arjun"
        "interiors").getPricing.map Pricing.finalPrice = some 1275000 ∧
    (calculateDetailedPrice { pincode := none } "arjun"
        "interiors").getPricing.map Pricing.finalPrice = some 1500000 := by
  refine ⟨?_, by norm_num, ?_, ?_⟩ <;>
    · simp [calculateDetailedPrice, CalcResult.getPricing, CalcResult.getBreakdown,
        totalPriceOf, baseRatePerSqftOf, projectTypeOf, finishTierOf, jsStringOr,
        baseRateFor, BASE_RATES, areaOf, botMultiplierFor, BOT_MULTIPLIERS,
        List.lookup, (show jsToLower "arjun" = "arjun" by decide),
        calculateMaterialMultiplier, materialCategoryFactor, getRegionMultiplier,
        (show jsStartsWith "999999" "400" = false by decide),
        (show jsStartsWith "999999" "110" = false by decide),
        (show jsStartsWith "999999" "121" = false by decide),
        (show jsStartsWith "999999" "122" = false by decide),
        (show jsStartsWith "999999" "560" = false by decide),
        (show jsStartsWith "999999" "411" = false by decide),
        (show jsStartsWith "999999" "412" = false by decide),
        (show jsStartsWith "999999" "500" = false by decide),
        regionMult, REGION_MULTIPLIERS,
        timelineMultiplierFor, scopeMultiplierFor, jsRound_eq_floor]
      try norm_num

/-- Claim C1, amended: an enumerated value that is not a key of its
multiplier table contributes factor exactly 1.0 for the persona id
(case-insensitively), each of the five material fields, the timeline and the
project scope — and never raises an error (the result is always the success
object); the region prefix is the exception, falling back to the default
multiplier 0.85 (see `C9_region_absent_vs_unmatched`). -/
theorem C1_unknown_enum_values_neutral (r : Responses) (b c : String)
    (hb : BOT_MULTIPLIERS.lookup (jsToLower b) = none)
    (hfl : ∀ s, r.flooring = some s → MATERIAL_MULTIPLIERS_flooring.lookup s = none)
    (hki : ∀ s, r.kitchen = some s → MATERIAL_MULTIPLIERS_kitchen.lookup s = none)
    (hli : ∀ s, r.lighting = some s → MATERIAL_MULTIPLIERS_lighting.lookup s = none)
    (hpa : ∀ s, r.paint = some s → MATERIAL_MULTIPLIERS_paint.lookup s = none)
    (hfu : ∀ s, r.furniture = some s → MATERIAL_MULTIPLIERS_furniture.lookup s = none)
    (ht : ∀ s, r.timeline = some s → TIMELINE_MULTIPLIERS.lookup s = none)
    (hsc : ∀ s, r.projectScope = some s → SCOPE_MULTIPLIERS.lookup s = none) :
    ∃ e, calculateDetailedPrice r b c = CalcResult.ok e ∧
      e.breakdown.botMultiplier = 1 ∧ e.breakdown.materialFactor = 1 ∧
      e.breakdown.timelineFactor = 1 ∧ e.breakdown.scopeFactor = 1 ∧
      e.pricing.finalPrice =
        jsRound (baseRatePerSqftOf r * areaOf r.areaSqft *
          getRegionMultiplier r.pincode) := by
  have h1 : botMultiplierFor b = 1 := by
    unfold botMultiplierFor
    rw [hb]
    rfl
  have hcat : ∀ (tbl : List (String × ℚ)) (f : Option String),
      (∀ s, f = some s → tbl.lookup s = none) → materialCategoryFactor tbl f = 1 := by
    intro tbl f hf
    cases f with
    | none => rfl
    | some s =>
        simp only [materialCategoryFactor]
        split_ifs
        · rfl
        · rw [hf s rfl]
          rfl
  have h2 : calculateMaterialMultiplier r = 1 := by
    unfold calculateMaterialMultiplier
    rw [hcat _ _ hfl, hcat _ _ hki, hcat _ _ hli, hcat _ _ hpa, hcat _ _ hfu]
    norm_num
  have h3 : timelineMultiplierFor r.timeline = 1 := by
    cases htl : r.timeline with
    | none => rfl
    | some s =>
        simp only [timelineMultiplierFor]
        rw [ht s htl]
        rfl
  have h4 : scopeMultiplierFor r.projectScope = 1 := by
    cases hsp : r.projectScope with
    | none => rfl
    | some s =>
        simp only [scopeMultiplierFor]
        rw [hsc s hsp]
        rfl
  refine ⟨_, rfl, h1, h2, h3, h4, ?_⟩
  show jsRound (totalPriceOf r b) = _
  unfold totalPriceOf
  rw [h1, h2, h3, h4]
  ring_nf

/-- Witness for `C1_unknown_enum_values_neutral`: every enumerated field set
to a value absent from its table (persona `"Zara"`, materials `"bamboo"`,
`"imported"`, `"neon"`, `"matte"`, `"antique"`, timeline `"someday"`, scope
`"everything"`). -/
theorem C1_unknown_enum_values_neutral_witness :
    ∃ e, calculateDetailedPrice
        { flooring := some "bamboo", kitchen := some "imported",
          lighting := some "neon", paint := some "matte",
          furniture := some "antique", timeline := some "someday",
          projectScope := some "everything" } "Zara" "interiors" = CalcResult.ok e ∧
      e.breakdown.botMultiplier = 1 ∧ e.breakdown.materialFactor = 1 ∧
      e.breakdown.timelineFactor = 1 ∧ e.breakdown.scopeFactor = 1 ∧
      e.pricing.finalPrice =
        jsRound (baseRatePerSqftOf
            { flooring := some "bamboo", kitchen := some "imported",
              lighting := some "neon", paint := some "matte",
              furniture := some "antique", timeline := some "someday",
              projectScope := some "everything" } * areaOf none *
          getRegionMultiplier none) :=
  C1_unknown_enum_values_neutral _ _ _ (by decide)
    (fun s hs => by cases Option.some.inj hs; decide)
    (fun s hs => by cases Option.some.inj hs; decide)
    (fun s hs => by cases Option.some.inj hs; decide)
    (fun s hs => by cases Option.some.inj hs; decide)
    (fun s hs => by cases Option.some.inj hs; decide)
    (fun s hs => by cases Option.some.inj hs; decide)
    (fun s hs => by cases Option.some.inj hs; decide)

/-- Claim C2, counterexample.  The claim asserts `finalPrice >= 0` for every
input of the expected shape; but `areaSqft: "-5"` parses to the truthy `-5`,
is not defaulted, and yields `finalPrice = round(1500 * -5) = -7500 < 0`. -/
theorem C2_negative_finalPrice_cex :
    (calculateDetailedPrice { areaSqft := some (-5) } "arjun"
        "interiors").getPricing.map Pricing.finalPrice = some (-7500) ∧
    ((-7500 : ℤ) < 0) := by
  refine ⟨?_, by norm_num⟩
  simp [calculateDetailedPrice, CalcResult.getPricing, totalPriceOf,
    baseRatePerSqftOf, projectTypeOf, finishTierOf, jsStringOr, baseRateFor,
    BASE_RATES, areaOf, botMultiplierFor, BOT_MULTIPLIERS, List.lookup,
    (show jsToLower "arjun" = "arjun" by decide),
    calculateMaterialMultiplier, materialCategoryFactor, getRegionMultiplier,
    timelineMultiplierFor, scopeMultiplierFor, jsRound_eq_floor]
  norm_num

/-- Claim C2, amended: `finalPrice >= 0` holds for every input whose parsed
`areaSqft`, when present, is nonnegative (in particular for every absent,
unparseable or zero area, which default to 1000); a negative parsed area is
the sole way to a negative final price, every multiplier being strictly
positive. -/
theorem C2_finalPrice_nonneg (r : Responses) (b c : String)
    (h : ∀ q, r.areaSqft = some q → 0 ≤ q) :
    ∃ e, calculateDetailedPrice r b c = CalcResult.ok e ∧
      0 ≤ e.pricing.finalPrice := by
  refine ⟨_, rfl, ?_⟩
  show 0 ≤ jsRound (totalPriceOf r b)
  refine jsRound_nonneg _ ?_
  have harea : 0 ≤ areaOf r.areaSqft := by
    cases ha : r.areaSqft with
    | none => norm_num [areaOf]
    | some q =>
        have hq := h q ha
        simp only [areaOf]
        split_ifs
        · norm_num
        · exact hq
  unfold totalPriceOf
  exact mul_nonneg (mul_nonneg (mul_nonneg (mul_nonneg (mul_nonneg
    (mul_nonneg (baseRatePerSqftOf_pos r).le harea)
    (botMultiplierFor_pos b).le)
    (calculateMaterialMultiplier_pos r).le)
    (getRegionMultiplier_pos r.pincode).le)
    (timelineMultiplierFor_pos r.timeline).le)
    (scopeMultiplierFor_pos r.projectScope).le

/-- Witness for `C2_finalPrice_nonneg` at the empty response record and
persona `"kavya"`. -/
theorem C2_finalPrice_nonneg_witness :
    ∃ e, calculateDetailedPrice {} "kavya" "interiors" = CalcResult.ok e ∧
      0 ≤ e.pricing.finalPrice :=
  C2_finalPrice_nonneg {} "kavya" "interiors" (fun q hq => by cases hq)

/-- Claim C5, counterexample.  The claim asserts
`basePrice == baseRate[projectCategory][finishTier] * area` exactly; but the
output `basePrice` is `Math.round(baseRatePerSqft * area)` (line 146), so
for the valid pair {Residential, Economy} with area 0.0001 the product is
0.12 while the returned `basePrice` is 0. -/
theorem C5_basePrice_rounded_cex :
    (calculateDetailedPrice
        { projectType := some "Residential", finishTier := some "Economy",
          areaSqft := some 0.0001 } "arjun" "interiors").getPricing.map
        Pricing.basePrice = some 0 ∧
    baseRateFor "Residential" "Economy" = some 1200 ∧
    ((0 : ℚ) < 1200 * (0.0001 : ℚ)) := by
  refine ⟨?_, by decide, by norm_num⟩
  simp [calculateDetailedPrice, CalcResult.getPricing, baseRatePerSqftOf,
    projectTypeOf, finishTierOf, jsStringOr, baseRateFor, BASE_RATES,
    List.lookup, areaOf, jsRound_eq_floor]
  norm_num

/-- Claim C5, amended: for every valid {projectCategory, finishTier} pair
supplied in the response record, the returned `basePrice` equals
`round(baseRate[projectCategory][finishTier] * area)` — hence equals the
exact product whenever that product is an integer (e.g. for whole-number
areas). -/
theorem C5_basePrice_from_rate_table (r : Responses) (b c pt ft : String)
    (hpt : r.projectType = some pt) (hft : r.finishTier = some ft)
    (hptv : pt = "Residential" ∨ pt = "Commercial")
    (hftv : ft = "Economy" ∨ ft = "Standard" ∨ ft = "Premium") :
    ∃ rate, baseRateFor pt ft = some rate ∧
      ∃ e, calculateDetailedPrice r b c = CalcResult.ok e ∧
        e.pricing.basePrice = jsRound (rate * areaOf r.areaSqft) := by
  have hbr : baseRatePerSqftOf r = (baseRateFor pt ft).getD 1200 := by
    have hpt2 : projectTypeOf r = pt := by
      rcases hptv with rfl | rfl <;> simp [projectTypeOf, jsStringOr, hpt]
    have hft2 : finishTierOf r = ft := by
      rcases hftv with rfl | rfl | rfl <;> simp [finishTierOf, jsStringOr, hft]
    rw [baseRatePerSqftOf, hpt2, hft2]
  rcases hptv with rfl | rfl <;> rcases hftv with rfl | rfl | rfl <;>
    · refine ⟨_, rfl, _, rfl, ?_⟩
      show jsRound (baseRatePerSqftOf r * areaOf r.areaSqft) = _
      rw [hbr]
      rfl

/-- Witness for `C5_basePrice_from_rate_table` at
{Commercial, Premium, area 2}. -/
theorem C5_basePrice_from_rate_table_witness :
    ∃ rate, baseRateFor "Commercial" "Premium" = some rate ∧
      ∃ e, calculateDetailedPrice
          { projectType := some "Commercial", finishTier := some "Premium",
            areaSqft := some 2 } "arjun" "interiors" = CalcResult.ok e ∧
        e.pricing.basePrice =
          jsRound (rate * areaOf (some 2)) :=
  C5_basePrice_from_rate_table _ "arjun" "interiors" "Commercial" "Premium"
    rfl rfl (Or.inr rfl) (Or.inr (Or.inr rfl))

/-- Claim C9: `getRegionMultiplier` treats an absent pincode and an
unmatched pincode differently — `undefined` or the empty string give factor
1.0, while a nonempty pincode matching none of the listed city prefixes
gives the default factor 0.85; the engine records this factor as
`breakdown.regionFactor`. -/
theorem C9_region_absent_vs_unmatched :
    getRegionMultiplier none = 1 ∧ getRegionMultiplier (some "") = 1 ∧
    (∀ s : String, s ≠ "" →
      jsStartsWith s "400" = false → jsStartsWith s "110" = false →
      jsStartsWith s "121" = false → jsStartsWith s "122" = false →
      jsStartsWith s "560" = false → jsStartsWith s "411" = false →
      jsStartsWith s "412" = false → jsStartsWith s "500" = false →
      getRegionMultiplier (some s) = 0.85) ∧
    (∀ (r : Responses) (b c : String), ∃ e, calculateDetailedPrice r b c = CalcResult.ok e ∧
      e.breakdown.regionFactor = getRegionMultiplier r.pincode) := by
  refine ⟨rfl, by simp [getRegionMultiplier], ?_, fun r b c => ⟨_, rfl, rfl⟩⟩
  intro s hs h1 h2 h3 h4 h5 h6 h7 h8
  simp only [getRegionMultiplier]
  rw [if_neg hs, if_neg (by simp [h1]), if_neg (by simp [h2, h3, h4]),
    if_neg (by simp [h5]), if_neg (by simp [h6, h7]), if_neg (by simp [h8])]
  exact regionMult_fallthrough

/-- Witness for `C9_region_absent_vs_unmatched` at the unmatched nonempty
pincode `"999999"`. -/
theorem C9_region_absent_vs_unmatched_witness :
    getRegionMultiplier (some "999999") = 0.85 :=
  C9_region_absent_vs_unmatched.2.2.1 "999999" (by decide) (by decide) (by decide)
    (by decide) (by decide) (by decide) (by decide) (by decide) (by decide)

/-- The `salon` coverage list of `validateServiceArea`. -/
theorem servicePincodes_salon :
    servicePincodesFor "salon" = ["400", "110", "560", "411", "500", "600"] := rfl

/-- The `tutor` coverage list of `validateServiceArea`. -/
theorem servicePincodes_tutor :
    servicePincodesFor "tutor" = ["400", "110", "560", "411", "500", "600", "700"] := rfl

/-- The `interiors` coverage list of `validateServiceArea`. -/
theorem servicePincodes_interiors :
    servicePincodesFor "interiors" =
      ["400", "110", "560", "411", "500", "600", "700", "380", "302", "226"] := rfl

/-- Claim C10: the per-category coverage sets form a chain — serviceable
under `salon` implies serviceable under `tutor`, which implies serviceable
under `interiors`. -/
theorem C10_coverage_chain (p : String) :
    ((validateServiceArea p "salon").isServiceable = true →
      (validateServiceArea p "tutor").isServiceable = true) ∧
    ((validateServiceArea p "tutor").isServiceable = true →
      (validateServiceArea p "interiors").isServiceable = true) := by
  constructor <;> intro h
  · have h1 : jsSubstring0_3 p ∈ servicePincodesFor "salon" :=
      (contains_true_iff_mem _ _).mp h
    refine (contains_true_iff_mem _ _).mpr ?_
    rw [servicePincodes_salon] at h1
    rw [servicePincodes_tutor]
    simp only [List.mem_cons, List.not_mem_nil, or_false] at h1 ⊢
    tauto
  · have h1 : jsSubstring0_3 p ∈ servicePincodesFor "tutor" :=
      (contains_true_iff_mem _ _).mp h
    refine (contains_true_iff_mem _ _).mpr ?_
    rw [servicePincodes_tutor] at h1
    rw [servicePincodes_interiors]
    simp only [List.mem_cons, List.not_mem_nil, or_false] at h1 ⊢
    tauto

/-- Witness for `C10_coverage_chain` at pincode `"400001"`, serviceable for
`salon`. -/
theorem C10_coverage_chain_witness :
    (validateServiceArea "400001" "tutor").isServiceable = true ∧
    (validateServiceArea "400001" "interiors").isServiceable = true :=
  ⟨(C10_coverage_chain "400001").1 (by decide),
   (C10_coverage_chain "400001").2 (by decide)⟩

/-- Claim C8: for every 6-digit postal code and every service category, the
delivery estimate is `"45-60 days"` and the service level `"premium"`
exactly when the 3-character prefix is one of the five metro prefixes, and
`"60-90 days"`/`"standard"` otherwise, independent of the category and of
coverage; in particular the unlisted prefix `"999"` with category
`"interiors"` gives `serviceable = false` with `"60-90 days"`/`"standard"`. -/
theorem C8_delivery_and_level_by_metro_set (p st : String) (hlen : p.length = 6) :
    ((validateServiceArea p st).estimatedDelivery =
      if jsSubstring0_3 p = "400" ∨ jsSubstring0_3 p = "110" ∨
          jsSubstring0_3 p = "560" ∨ jsSubstring0_3 p = "411" ∨
          jsSubstring0_3 p = "500"
      then "45-60 days" else "60-90 days") ∧
    ((validateServiceArea p st).serviceLevel =
      if jsSubstring0_3 p = "400" ∨ jsSubstring0_3 p = "110" ∨
          jsSubstring0_3 p = "560" ∨ jsSubstring0_3 p = "411" ∨
          jsSubstring0_3 p = "500"
      then "premium" else "standard") ∧
    validateServiceArea "999123" "interiors" =
      { isServiceable := false, estimatedDelivery := "60-90 days",
        serviceLevel := "standard" } := by
  have hb : metroAreas.contains (jsSubstring0_3 p) = true ↔
      (jsSubstring0_3 p = "400" ∨ jsSubstring0_3 p = "110" ∨
        jsSubstring0_3 p = "560" ∨ jsSubstring0_3 p = "411" ∨
        jsSubstring0_3 p = "500") := by
    rw [contains_true_iff_mem]
    simp [metroAreas]
  refine ⟨?_, ?_, by decide⟩
  · show getEstimatedDelivery (jsSubstring0_3 p) = _
    unfold getEstimatedDelivery
    by_cases hd : jsSubstring0_3 p = "400" ∨ jsSubstring0_3 p = "110" ∨
        jsSubstring0_3 p = "560" ∨ jsSubstring0_3 p = "411" ∨
        jsSubstring0_3 p = "500"
    · rw [if_pos (hb.mpr hd), if_pos hd]
    · rw [if_neg (fun hc => hd (hb.mp hc)), if_neg hd]
  · show getServiceLevel (jsSubstring0_3 p) = _
    unfold getServiceLevel
    by_cases hd : jsSubstring0_3 p = "400" ∨ jsSubstring0_3 p = "110" ∨
        jsSubstring0_3 p = "560" ∨ jsSubstring0_3 p = "411" ∨
        jsSubstring0_3 p = "500"
    · rw [if_pos (hb.mpr hd), if_pos hd]
    · rw [if_neg (fun hc => hd (hb.mp hc)), if_neg hd]

/-- Witness for `C8_delivery_and_level_by_metro_set` at the 6-digit
non-metro postal code `"999123"`. -/
theorem C8_delivery_and_level_by_metro_set_witness :
    (validateServiceArea "999123" "interiors").estimatedDelivery =
      (if jsSubstring0_3 "999123" = "400" ∨ jsSubstring0_3 "999123" = "110" ∨
          jsSubstring0_3 "999123" = "560" ∨ jsSubstring0_3 "999123" = "411" ∨
          jsSubstring0_3 "999123" = "500"
       then "45-60 days" else "60-90 days") :=
  (C8_delivery_and_level_by_metro_set "999123" "interiors" (by decide)).1
